import Mathlib

/-!
# terraform-provider-instatus: provider configuration and the template reconciler

A shallow embedding of `instatus/provider.go` and `instatus/template_resource.go`.

* Go values of type `types.String` / `types.Bool` (terraform-plugin-framework) are
  three-state values: null, unknown, or known with a value.
* Go pointers `*string` / `*bool` of the API client structs are `Option`.
* A method that fills a `resp *...Response` takes the response as an argument and
  returns the response it leaves behind.
* The API client is an external collaborator: it is a parameter of every method,
  given as state-passing functions over an arbitrary remote state.
* `os.Getenv` and `time.Now().Format(time.RFC850)` are parameters.
-/

namespace instatus

/-! ## Diagnostics (terraform-plugin-framework, package `diag`) -/

/-- Severity of a diagnostic. -/
inductive diag.Severity
  | SeverityError
  | SeverityWarning
  deriving DecidableEq, Repr

/-- One diagnostic: severity, optional attribute path, summary and detail. -/
structure diag.Diagnostic where
  Severity : diag.Severity
  Path : Option String
  Summary : String
  Detail : String
  deriving DecidableEq, Repr

/-- The Go type `diag.Diagnostics` is a slice of diagnostics. -/
abbrev diag.Diagnostics := List diag.Diagnostic

/-- Go `diag.NewErrorDiagnostic(summary, detail)`. -/
def diag.NewErrorDiagnostic (summary detail : String) : diag.Diagnostic :=
  { Severity := .SeverityError, Path := none, Summary := summary, Detail := detail }

/-- Go `diag.NewAttributeErrorDiagnostic(path, summary, detail)`. -/
def diag.NewAttributeErrorDiagnostic (path summary detail : String) : diag.Diagnostic :=
  { Severity := .SeverityError, Path := some path, Summary := summary, Detail := detail }

/-- Go `Diagnostics.Contains`: an equal diagnostic is already in the slice. -/
def diag.Diagnostics.Contains (diags : diag.Diagnostics) (d : diag.Diagnostic) : Bool :=
  diags.any (fun e => decide (e = d))

/-- Go `Diagnostics.Append(in...)`: each new diagnostic is added at the end unless an
equal one is already there. -/
def diag.Diagnostics.Append (diags : diag.Diagnostics) (new : diag.Diagnostics) :
    diag.Diagnostics :=
  new.foldl (fun acc d => if diag.Diagnostics.Contains acc d then acc else acc ++ [d]) diags

/-- Go `Diagnostics.AddError(summary, detail)`. -/
def diag.Diagnostics.AddError (diags : diag.Diagnostics) (summary detail : String) :
    diag.Diagnostics :=
  diag.Diagnostics.Append diags [diag.NewErrorDiagnostic summary detail]

/-- Go `Diagnostics.AddAttributeError(path, summary, detail)`. -/
def diag.Diagnostics.AddAttributeError (diags : diag.Diagnostics)
    (path summary detail : String) : diag.Diagnostics :=
  diag.Diagnostics.Append diags [diag.NewAttributeErrorDiagnostic path summary detail]

/-- Go `Diagnostics.HasError()`: some diagnostic has error severity. -/
def diag.Diagnostics.HasError (diags : diag.Diagnostics) : Bool :=
  diags.any (fun d => decide (d.Severity = .SeverityError))

/-! ## Framework values (terraform-plugin-framework, packages `types` / `basetypes`) -/

/-- Go `types.String` (= `basetypes.StringValue`): null, unknown or a known string. -/
inductive basetypes.StringValue
  | null
  | unknown
  | known (value : String)
  deriving DecidableEq, Repr

/-- Go `types.Bool` (= `basetypes.BoolValue`): null, unknown or a known boolean. -/
inductive basetypes.BoolValue
  | null
  | unknown
  | known (value : Bool)
  deriving DecidableEq, Repr

/-- Go `StringValue.IsNull()`. -/
def basetypes.StringValue.IsNull : basetypes.StringValue → Bool
  | .null => true
  | _ => false

/-- Go `StringValue.IsUnknown()`. -/
def basetypes.StringValue.IsUnknown : basetypes.StringValue → Bool
  | .unknown => true
  | _ => false

/-- Go `StringValue.ValueString()`: the known value, the empty string for null or unknown. -/
def basetypes.StringValue.ValueString : basetypes.StringValue → String
  | .known v => v
  | _ => ""

/-- Go `StringValue.ValueStringPointer()`: nil for null, otherwise a pointer to the value
(the empty string for unknown). -/
def basetypes.StringValue.ValueStringPointer : basetypes.StringValue → Option String
  | .null => none
  | .unknown => some ""
  | .known v => some v

/-- Go `BoolValue.IsUnknown()`. -/
def basetypes.BoolValue.IsUnknown : basetypes.BoolValue → Bool
  | .unknown => true
  | _ => false

/-- Go `BoolValue.ValueBoolPointer()`: nil for null, otherwise a pointer to the value
(false for unknown). -/
def basetypes.BoolValue.ValueBoolPointer : basetypes.BoolValue → Option Bool
  | .null => none
  | .unknown => some false
  | .known v => some v

/-- Go `types.StringValue(v)`. -/
def types.StringValue (v : String) : basetypes.StringValue := .known v

/-- Go `types.StringPointerValue(p)`: null for nil, otherwise the known value. -/
def types.StringPointerValue : Option String → basetypes.StringValue
  | none => .null
  | some v => .known v

/-- Go `types.BoolPointerValue(p)`: null for nil, otherwise the known value. -/
def types.BoolPointerValue : Option Bool → basetypes.BoolValue
  | none => .null
  | some v => .known v

/-- Go `path.Root(name)`: the path of a top-level attribute, kept as its name. -/
def path.Root (name : String) : String := name

/-- Configuration, plan or prior-state data handed over by the host, described by what
`Get(ctx, &target)` does with it: the diagnostics it returns and the value it decodes
into the target. -/
structure tfsdk.Data (α : Type) where
  diags : diag.Diagnostics
  value : α

/-! ## `instatus/provider.go` -/

/-- Go `instatusProviderModel`. -/
structure instatusProviderModel where
  ApiKey : basetypes.StringValue
  deriving DecidableEq, Repr

/-- Go `provider.ConfigureRequest`: the provider configuration. -/
structure provider.ConfigureRequest where
  Config : tfsdk.Data instatusProviderModel

/-- Go `provider.ConfigureResponse`: diagnostics and the client handed to data sources and
resources (`none` is Go nil). The client type is a parameter. -/
structure provider.ConfigureResponse (κ : Type) where
  Diagnostics : diag.Diagnostics
  DataSourceData : Option κ
  ResourceData : Option κ

/-- Detail text of the unknown-value error of `Configure`. -/
def unknownApiKeyDetail : String :=
  "The provider cannot create the Instatus API client as there is an unknown configuration value for the Instatus API Key. " ++
    "Either target apply the source of the value first, set the value statically in the configuration, or use the INSTATUS_APIKEY environment variable."

/-- Detail text of the missing-credential error of `Configure`. -/
def missingApiKeyDetail : String :=
  "The provider cannot create the Instatus API client as there is a missing or empty value for the Instatus API Key. " ++
    "Set the host value in the configuration or use the HASHICUPS_APIKEY environment variable. " ++
    "If either is already set, ensure the value is not empty."

/-- Go `(*instatusProvider).Configure` (provider.go lines 53-111). `NewClient` is
`is.NewClient` of the API client library and `Getenv` is `os.Getenv`. -/
def instatusProvider.Configure {κ : Type} (NewClient : String → κ) (Getenv : String → String)
    (req : provider.ConfigureRequest) (resp : provider.ConfigureResponse κ) :
    provider.ConfigureResponse κ :=
  -- Retrieve provider data from configuration
  let config := req.Config.value
  let diags := req.Config.diags
  let resp := { resp with Diagnostics := diag.Diagnostics.Append resp.Diagnostics diags }
  if diag.Diagnostics.HasError resp.Diagnostics then resp else
  -- a configured value must be a known value
  let resp :=
    if config.ApiKey.IsUnknown then
      { resp with
        Diagnostics := diag.Diagnostics.AddAttributeError resp.Diagnostics
          (path.Root "api_key") "Unknown Instatus API Key" unknownApiKeyDetail }
    else resp
  if diag.Diagnostics.HasError resp.Diagnostics then resp else
  -- default to the environment variable, override with the configuration value if set
  let apiKey := Getenv "INSTATUS_APIKEY"
  let apiKey := if !config.ApiKey.IsNull then config.ApiKey.ValueString else apiKey
  let resp :=
    if apiKey == "" then
      { resp with
        Diagnostics := diag.Diagnostics.AddAttributeError resp.Diagnostics
          (path.Root "apiKey") "Missing Instatus API Key" missingApiKeyDetail }
    else resp
  if diag.Diagnostics.HasError resp.Diagnostics then resp else
  -- create the client and make it available to data sources and resources
  let client := NewClient apiKey
  { resp with DataSourceData := some client, ResourceData := some client }

/-- The response the host passes to `Configure`: no diagnostics, no client. -/
def provider.ConfigureResponse.fresh (κ : Type) : provider.ConfigureResponse κ :=
  { Diagnostics := [], DataSourceData := none, ResourceData := none }

/-! ## API client (`github.com/paydaycay/instatus-client-go`, imported as `is`) -/

/-- Go `is.TemplateComponent`, with the fields `template_resource.go` names: `ID` and
`Status` are written by Create and Update, `ComponentID` and `Status` are read by Read. -/
structure is.TemplateComponent where
  ID : Option String
  ComponentID : Option String
  Status : Option String
  deriving DecidableEq, Repr

/-- Go `is.Template`, with the fields `template_resource.go` names (the Go field `Type`
is `Type_` here). -/
structure is.Template where
  ID : Option String
  Subdomain : Option String
  Name : Option String
  Type_ : Option String
  Message : Option String
  Status : Option String
  Notify : Option Bool
  Components : List is.TemplateComponent
  deriving DecidableEq, Repr

/-- Go `*is.Client`, the four template calls. The remote is opaque: every call takes the
remote state and returns the new one; a Go result `(template, err)` is an `Except` over the
text `err.Error()`, a Go result `err` is an `Option` (`none` is nil). -/
structure is.Client (σ : Type) where
  CreateTemplate : String → is.Template → σ → Except String is.Template × σ
  GetTemplate : String → String → σ → Except String is.Template × σ
  UpdateTemplate : String → String → is.Template → σ → Except String is.Template × σ
  DeleteTemplate : String → String → σ → Option String × σ

/-- A call issued on the client, with its arguments. -/
inductive is.Call
  | CreateTemplate (pageID : String) (template : is.Template)
  | GetTemplate (pageID templateID : String)
  | UpdateTemplate (pageID templateID : String) (template : is.Template)
  | DeleteTemplate (pageID templateID : String)
  deriving DecidableEq, Repr

/-! ## `instatus/template_resource.go` -/

/-- Go `templateComponentModel`. -/
structure templateComponentModel where
  ID : basetypes.StringValue
  Status : basetypes.StringValue
  deriving DecidableEq, Repr

/-- Go `templateResourceModel` (the Go field `Type` is `Type_` here). -/
structure templateResourceModel where
  ID : basetypes.StringValue
  PageID : basetypes.StringValue
  Subdomain : basetypes.StringValue
  Name : basetypes.StringValue
  Type_ : basetypes.StringValue
  Message : basetypes.StringValue
  Status : basetypes.StringValue
  Components : List templateComponentModel
  Notify : basetypes.BoolValue
  LastUpdated : basetypes.StringValue
  deriving DecidableEq, Repr

/-- Go `resource.CreateRequest`: the plan. -/
structure resource.CreateRequest where
  Plan : tfsdk.Data templateResourceModel

/-- Go `resource.ReadRequest`: the current state. -/
structure resource.ReadRequest where
  State : tfsdk.Data templateResourceModel

/-- Go `resource.UpdateRequest`: the plan and the prior state. -/
structure resource.UpdateRequest where
  Plan : tfsdk.Data templateResourceModel
  State : tfsdk.Data templateResourceModel

/-- Go `resource.DeleteRequest`: the prior state. -/
structure resource.DeleteRequest where
  State : tfsdk.Data templateResourceModel

/-- Go `resource.CreateResponse` / `ReadResponse` / `UpdateResponse` / `DeleteResponse`:
the state (`none` when there is none) and the diagnostics. `resp.State.Set(ctx, v)` with a
value of the model type of the schema stores `v` and returns no diagnostics. -/
structure resource.Response where
  State : Option templateResourceModel
  Diagnostics : diag.Diagnostics
  deriving DecidableEq, Repr

/-- What a resource method leaves behind: the response, the calls it issued on the client
in order, and the remote state after them. -/
structure Outcome (σ : Type) where
  resp : resource.Response
  calls : List is.Call
  remote : σ

/-- Schema: the allowed component statuses. -/
def componentStatuses : List String :=
  ["OPERATIONAL", "UNDERMAINTENANCE", "DEGRADEDPERFORMANCE", "PARTIALOUTAGE", "MAJOROUTAGE"]

/-- Schema: the allowed template statuses. -/
def templateStatuses : List String :=
  ["INVESTIGATING", "IDENTIFIED", "MONITORING", "RESOLVED", "NOTSTARTEDYET", "INPROGRESS",
    "COMPLETED"]

/-- Schema: the allowed template types. -/
def templateTypes : List String := ["MAINTENANCE", "INCIDENT"]

/-- Go `stringvalidator.OneOf(values...)` run on the attribute at `path`: a null or unknown
value is not validated, a known value that is none of `values` gives the attribute error
`Invalid Attribute Value Match`, whose detail lists the allowed values and the value got,
each quoted. -/
def stringvalidator.OneOf (values : List String) (path : String)
    (v : basetypes.StringValue) : diag.Diagnostics :=
  match v with
  | .known s =>
    if values.contains s then []
    else [diag.NewAttributeErrorDiagnostic path "Invalid Attribute Value Match"
      ("Attribute " ++ path ++ " value must be one of: [" ++
        " ".intercalate (values.map String.quote) ++ "], got: " ++ s.quote)]
  | _ => []

/-- The rule `Required: true` of a schema attribute, as the host enforces it on a
configuration: a null value is an error. -/
def schema.Required (path : String) (v : basetypes.StringValue) : diag.Diagnostics :=
  if v.IsNull then
    [diag.NewAttributeErrorDiagnostic path "Missing required argument"
      ("The argument " ++ path.quote ++ " is required, but no definition was found.")]
  else []

/-- The rules of the nested attributes of `components` (lines 120-136) on the elements
from index `i` on: `id` and `status` are required, `status` has the validator
`OneOf(componentStatuses...)`. The path of an element names its index. -/
def templateResource.Schema.Components (i : Nat) :
    List templateComponentModel → diag.Diagnostics
  | [] => []
  | component :: rest =>
    schema.Required ("components[" ++ toString i ++ "].id") component.ID ++
    schema.Required ("components[" ++ toString i ++ "].status") component.Status ++
    stringvalidator.OneOf componentStatuses ("components[" ++ toString i ++ "].status")
      component.Status ++
    templateResource.Schema.Components (i + 1) rest

/-- The rules that `(*templateResource).Schema` (lines 71-139) puts on a configuration,
run on a document: `page_id`, `subdomain`, `type`, `status`, `name` and `message` are
required, `type` has the validator `OneOf(templateTypes...)`, `status` has
`OneOf(templateStatuses...)`, and every element of `components` has the rules of the
nested attributes. The diagnostics are listed in the order of the schema text; the host
makes no promise on their order. The list `components` itself cannot be null here. -/
def templateResource.Schema.Validate (config : templateResourceModel) : diag.Diagnostics :=
  schema.Required (path.Root "page_id") config.PageID ++
  schema.Required (path.Root "subdomain") config.Subdomain ++
  schema.Required (path.Root "type") config.Type_ ++
  stringvalidator.OneOf templateTypes (path.Root "type") config.Type_ ++
  schema.Required (path.Root "status") config.Status ++
  stringvalidator.OneOf templateStatuses (path.Root "status") config.Status ++
  schema.Required (path.Root "name") config.Name ++
  schema.Required (path.Root "message") config.Message ++
  templateResource.Schema.Components 0 config.Components

/-- Go `stringplanmodifier.UseStateForUnknown()`, the plan modifier that the schema puts on
`id` (lines 82-84), as a function of the state value, the planned value and the
configuration value of the attribute: it does nothing if there is no state value, if the
planned value is known, or if the configuration value is unknown; otherwise the planned
value becomes the state value. -/
def stringplanmodifier.UseStateForUnknown
    (StateValue PlanValue ConfigValue : basetypes.StringValue) : basetypes.StringValue :=
  if StateValue.IsNull then PlanValue
  else if !PlanValue.IsUnknown then PlanValue
  else if ConfigValue.IsUnknown then PlanValue
  else StateValue

/-- Go `(*templateResource).Create` (lines 142-190). `now` is
`time.Now().Format(time.RFC850)`. Fields of the request body that the Go literal does not
name have the zero value nil. -/
def templateResource.Create {σ : Type} (client : is.Client σ) (now : String)
    (req : resource.CreateRequest) (resp : resource.Response) (remote : σ) : Outcome σ :=
  -- Retrieve values from plan
  let plan := req.Plan.value
  let diags := req.Plan.diags
  let resp := { resp with Diagnostics := diag.Diagnostics.Append resp.Diagnostics diags }
  if diag.Diagnostics.HasError resp.Diagnostics then
    { resp := resp, calls := [], remote := remote }
  else
    let components : List is.TemplateComponent :=
      plan.Components.foldl
        (fun components component =>
          components ++ [{ ID := component.ID.ValueStringPointer,
                           ComponentID := none,
                           Status := component.Status.ValueStringPointer }])
        []
    let item : is.Template :=
      { ID := none,
        Name := plan.Name.ValueStringPointer,
        Type_ := plan.Type_.ValueStringPointer,
        Subdomain := plan.Subdomain.ValueStringPointer,
        Message := plan.Message.ValueStringPointer,
        Status := plan.Status.ValueStringPointer,
        Notify := plan.Notify.ValueBoolPointer,
        Components := components }
    -- Create new template
    let call := is.Call.CreateTemplate plan.PageID.ValueString item
    match client.CreateTemplate plan.PageID.ValueString item remote with
    | (.error err, remote) =>
      { resp := { resp with
                  Diagnostics := diag.Diagnostics.AddError resp.Diagnostics
                    "Error creating template"
                    ("Could not create template, unexpected error: " ++ err) },
        calls := [call], remote := remote }
    | (.ok template, remote) =>
      -- Map response body to schema and populate Computed attribute values
      let plan := { plan with ID := types.StringPointerValue template.ID }
      let plan := { plan with LastUpdated := types.StringValue now }
      -- Set state to fully populated data
      { resp := { resp with State := some plan }, calls := [call], remote := remote }

/-- Go `(*templateResource).Read` (lines 193-231). -/
def templateResource.Read {σ : Type} (client : is.Client σ)
    (req : resource.ReadRequest) (resp : resource.Response) (remote : σ) : Outcome σ :=
  -- Get current state
  let state := req.State.value
  let diags := req.State.diags
  let resp := { resp with Diagnostics := diag.Diagnostics.Append resp.Diagnostics diags }
  if diag.Diagnostics.HasError resp.Diagnostics then
    { resp := resp, calls := [], remote := remote }
  else
    -- Get refreshed template value from Instatus
    let call := is.Call.GetTemplate state.PageID.ValueString state.ID.ValueString
    match client.GetTemplate state.PageID.ValueString state.ID.ValueString remote with
    | (.error err, remote) =>
      { resp := { resp with
                  Diagnostics := diag.Diagnostics.AddError resp.Diagnostics
                    "Error Reading Instatus Template"
                    ("Could not read Instatus template ID " ++ state.ID.ValueString ++ ": "
                      ++ err) },
        calls := [call], remote := remote }
    | (.ok template, remote) =>
      -- Overwrite items with refreshed state
      let state := { state with Name := types.StringPointerValue template.Name }
      let state := { state with Type_ := types.StringPointerValue template.Type_ }
      let state := { state with Message := types.StringPointerValue template.Message }
      let state := { state with Status := types.StringPointerValue template.Status }
      let state := { state with Notify := types.BoolPointerValue template.Notify }
      let state := { state with Components := [] }
      let state := template.Components.foldl
        (fun state component =>
          { state with
            Components := state.Components ++
              [{ ID := types.StringPointerValue component.ComponentID,
                 Status := types.StringPointerValue component.Status }] })
        state
      -- Set refreshed state
      { resp := { resp with State := some state }, calls := [call], remote := remote }

/-- Go `(*templateResource).Update` (lines 234-281). `now` is
`time.Now().Format(time.RFC850)`. Only `req.Plan` is read. -/
def templateResource.Update {σ : Type} (client : is.Client σ) (now : String)
    (req : resource.UpdateRequest) (resp : resource.Response) (remote : σ) : Outcome σ :=
  -- Retrieve values from plan
  let plan := req.Plan.value
  let diags := req.Plan.diags
  let resp := { resp with Diagnostics := diag.Diagnostics.Append resp.Diagnostics diags }
  if diag.Diagnostics.HasError resp.Diagnostics then
    { resp := resp, calls := [], remote := remote }
  else
    -- Generate API request body from plan
    let components : List is.TemplateComponent :=
      plan.Components.foldl
        (fun components component =>
          components ++ [{ ID := component.ID.ValueStringPointer,
                           ComponentID := none,
                           Status := component.Status.ValueStringPointer }])
        []
    let item : is.Template :=
      { ID := none,
        Name := plan.Name.ValueStringPointer,
        Subdomain := plan.Subdomain.ValueStringPointer,
        Type_ := plan.Type_.ValueStringPointer,
        Message := plan.Message.ValueStringPointer,
        Status := plan.Status.ValueStringPointer,
        Notify := plan.Notify.ValueBoolPointer,
        Components := components }
    -- Update existing template
    let call := is.Call.UpdateTemplate plan.PageID.ValueString plan.ID.ValueString item
    match client.UpdateTemplate plan.PageID.ValueString plan.ID.ValueString item remote with
    | (.error err, remote) =>
      { resp := { resp with
                  Diagnostics := diag.Diagnostics.AddError resp.Diagnostics
                    "Error Updating Instatus Template"
                    ("Could not update template, unexpected error: " ++ err) },
        calls := [call], remote := remote }
    | (.ok _, remote) =>
      -- Map response body to schema and populate Computed attribute values
      let plan := { plan with LastUpdated := types.StringValue now }
      -- Set state to fully populated data
      { resp := { resp with State := some plan }, calls := [call], remote := remote }

/-- Go `(*templateResource).Delete` (lines 284-302). -/
def templateResource.Delete {σ : Type} (client : is.Client σ)
    (req : resource.DeleteRequest) (resp : resource.Response) (remote : σ) : Outcome σ :=
  -- Retrieve values from state
  let state := req.State.value
  let diags := req.State.diags
  let resp := { resp with Diagnostics := diag.Diagnostics.Append resp.Diagnostics diags }
  if diag.Diagnostics.HasError resp.Diagnostics then
    { resp := resp, calls := [], remote := remote }
  else
    -- Delete existing template
    let call := is.Call.DeleteTemplate state.PageID.ValueString state.ID.ValueString
    match client.DeleteTemplate state.PageID.ValueString state.ID.ValueString remote with
    | (some err, remote) =>
      { resp := { resp with
                  Diagnostics := diag.Diagnostics.AddError resp.Diagnostics
                    "Error Deleting Instatus Template"
                    ("Could not delete template, unexpected error: " ++ err) },
        calls := [call], remote := remote }
    | (none, remote) => { resp := resp, calls := [call], remote := remote }

/-! ## Specification-side notions and a stub remote -/

/-- The credential after resolution, in the words of the specification (section 4.1): the
configured value if it is present (not unset, not unknown), otherwise the environment
variable. -/
def spec.resolvedCredential (configured : basetypes.StringValue) (env : String) : String :=
  match configured with
  | .known v => v
  | _ => env

/-- The request body for a desired document, in the words of the specification (section
4.2): the full desired document translated field by field, the component list in full and
in order. The identifier is not part of the body. -/
def spec.requestBody (desired : templateResourceModel) : is.Template :=
  { ID := none,
    Subdomain := desired.Subdomain.ValueStringPointer,
    Name := desired.Name.ValueStringPointer,
    Type_ := desired.Type_.ValueStringPointer,
    Message := desired.Message.ValueStringPointer,
    Status := desired.Status.ValueStringPointer,
    Notify := desired.Notify.ValueBoolPointer,
    Components := desired.Components.map (fun component =>
      { ID := component.ID.ValueStringPointer,
        ComponentID := none,
        Status := component.Status.ValueStringPointer }) }

/-- The component list that Read writes for a fetched template: one element per fetched
component, in order, with the `ComponentID` and `Status` of the remote. -/
def spec.fetchedComponents (template : is.Template) : List templateComponentModel :=
  template.Components.map (fun component =>
    { ID := types.StringPointerValue component.ComponentID,
      Status := types.StringPointerValue component.Status })

/-- No field of the document that Create sends and Read refreshes (name, type, message,
status, notify, the id and status of every component) is unknown; every document that is
valid for the schema at apply time is such. -/
def templateResourceModel.Determined (m : templateResourceModel) : Bool :=
  !m.Name.IsUnknown && !m.Type_.IsUnknown && !m.Message.IsUnknown && !m.Status.IsUnknown &&
    !m.Notify.IsUnknown &&
    m.Components.all (fun component => !component.ID.IsUnknown && !component.Status.IsUnknown)

/-- State of the stub remote: the stored templates with their page id and template id,
most recent first. -/
structure stub.Remote where
  templates : List (String × String × is.Template)
  deriving DecidableEq, Repr

/-- The stored template with the given page id and template id, if any. -/
def stub.Remote.lookup (r : stub.Remote) (pageID templateID : String) : Option is.Template :=
  (r.templates.find? (fun e => e.1 == pageID && e.2.1 == templateID)).map (fun e => e.2.2)

/-- A stub remote. `CreateTemplate` stores the body under the identifier `newID`;
`GetTemplate` returns the stored template; `UpdateTemplate` replaces it; `DeleteTemplate`
removes it; the last three fail with a not-found error for an identifier that is not
stored. `view` is how the remote renders a stored template in a response (`id` returns it
unchanged). -/
def stub.client (newID : String) (view : is.Template → is.Template) : is.Client stub.Remote where
  CreateTemplate := fun pageID body r =>
    let stored := { body with ID := some newID }
    (.ok (view stored), { templates := (pageID, newID, stored) :: r.templates })
  GetTemplate := fun pageID templateID r =>
    match r.lookup pageID templateID with
    | some t => (.ok (view t), r)
    | none => (.error "template not found", r)
  UpdateTemplate := fun pageID templateID body r =>
    match r.lookup pageID templateID with
    | some _ =>
      let stored := { body with ID := some templateID }
      (.ok (view stored), { templates := (pageID, templateID, stored) :: r.templates })
    | none => (.error "template not found", r)
  DeleteTemplate := fun pageID templateID r =>
    match r.lookup pageID templateID with
    | some _ =>
      (none, { templates :=
        r.templates.filter (fun e => !(e.1 == pageID && e.2.1 == templateID)) })
    | none => (some "template not found", r)

/-- A remote rendering that reports, for every component, the component identifier it was
sent in `ID` as `ComponentID`. -/
def stub.withComponentID (t : is.Template) : is.Template :=
  { t with Components := t.Components.map (fun c => { c with ComponentID := c.ID }) }

/-- Create followed immediately by Read, as the host drives them: Create gets the plan and
an empty response; if it leaves a state and no error, Read gets that state. -/
def createThenRead {σ : Type} (client : is.Client σ) (now : String)
    (plan : templateResourceModel) (remote : σ) : Outcome σ :=
  let created := templateResource.Create client now { Plan := { diags := [], value := plan } }
    { State := none, Diagnostics := [] } remote
  match created.resp.State with
  | none => created
  | some state =>
    if diag.Diagnostics.HasError created.resp.Diagnostics then created
    else
      let read := templateResource.Read client { State := { diags := [], value := state } }
        { State := some state, Diagnostics := [] } created.remote
      { read with calls := created.calls ++ read.calls }

/-- The plan of a create as the host builds it from a configuration: the attributes `id`
and `last_updated` are `Computed` (lines 79-85 and 104-107), have no configuration value
and are unknown in the plan. -/
def host.planCreate (config : templateResourceModel) : templateResourceModel :=
  { config with ID := .unknown, LastUpdated := .unknown }

/-- The plan of an update as the host builds it from a configuration and the prior state:
the `Computed` attributes `id` and `last_updated` have a null configuration value and are
unknown in the plan, then the plan modifier of `id` runs. -/
def host.planUpdate (config prior : templateResourceModel) : templateResourceModel :=
  { config with
    ID := stringplanmodifier.UseStateForUnknown prior.ID .unknown .null,
    LastUpdated := .unknown }

/-- A create as the host drives it: the configuration is validated against the schema
first; with a validation error Create is not invoked, otherwise Create gets the plan and
an empty response. -/
def host.create {σ : Type} (client : is.Client σ) (now : String)
    (config : templateResourceModel) (remote : σ) : Outcome σ :=
  let diags := templateResource.Schema.Validate config
  if diag.Diagnostics.HasError diags then
    { resp := { State := none, Diagnostics := diags }, calls := [], remote := remote }
  else
    templateResource.Create client now
      { Plan := { diags := [], value := host.planCreate config } }
      { State := none, Diagnostics := [] } remote

/-- An update as the host drives it: the configuration is validated against the schema
first; with a validation error Update is not invoked and the prior state stays, otherwise
Update gets the plan and a response that holds the prior state. -/
def host.update {σ : Type} (client : is.Client σ) (now : String)
    (config prior : templateResourceModel) (remote : σ) : Outcome σ :=
  let diags := templateResource.Schema.Validate config
  if diag.Diagnostics.HasError diags then
    { resp := { State := some prior, Diagnostics := diags }, calls := [], remote := remote }
  else
    templateResource.Update client now
      { Plan := { diags := [], value := host.planUpdate config prior },
        State := { diags := [], value := prior } }
      { State := some prior, Diagnostics := [] } remote

/-- A lifecycle step after Create: an Update with a desired document, or a Read. -/
inductive Step
  | Update (desired : templateResourceModel) (now : String)
  | Read
  deriving DecidableEq, Repr

/-- One step as the host drives it, fed the state the previous step produced: an Update
of the desired document with that state as the prior state, or a Read of that state. -/
def Step.run {σ : Type} (client : is.Client σ) (state : templateResourceModel) (remote : σ) :
    Step → Outcome σ
  | .Update desired now => host.update client now desired state remote
  | .Read =>
    templateResource.Read client { State := { diags := [], value := state } }
      { State := some state, Diagnostics := [] } remote

/-- The states returned by the successive steps of a lifecycle that starts from `state`,
up to the first step that fails. -/
def lifecycleStates {σ : Type} (client : is.Client σ) :
    templateResourceModel → σ → List Step → List templateResourceModel
  | _, _, [] => []
  | state, remote, step :: rest =>
    let out := step.run client state remote
    if diag.Diagnostics.HasError out.resp.Diagnostics then []
    else
      match out.resp.State with
      | none => []
      | some next => next :: lifecycleStates client next out.remote rest

/-- The request body that a call carries, if it carries one. -/
def is.Call.body : is.Call → Option is.Template
  | .CreateTemplate _ template => some template
  | .UpdateTemplate _ _ template => some template
  | .GetTemplate _ _ => none
  | .DeleteTemplate _ _ => none

/-- The component lists of the request bodies sent by a sequence of calls, in order. -/
def sentComponents (calls : List is.Call) : List (List is.TemplateComponent) :=
  calls.filterMap (fun call => call.body.map (fun template => template.Components))

/-! ## Sample inputs -/

/-- A desired document: an incident template with two components that share an
identifier, notify unset; the computed attributes are unknown. -/
def sample.desired : templateResourceModel :=
  { ID := .unknown, PageID := .known "page-1", Subdomain := .known "sub",
    Name := .known "n", Type_ := .known "INCIDENT", Message := .known "m",
    Status := .known "RESOLVED",
    Components := [{ ID := .known "cmp-1", Status := .known "OPERATIONAL" },
                   { ID := .known "cmp-1", Status := .known "MAJOROUTAGE" }],
    Notify := .null, LastUpdated := .unknown }

/-- A persisted state of the template `tpl-1` of page `page-1`, with notify set. -/
def sample.persisted : templateResourceModel :=
  { ID := .known "tpl-1", PageID := .known "page-1", Subdomain := .known "sub",
    Name := .known "old", Type_ := .known "MAINTENANCE", Message := .known "old message",
    Status := .known "INPROGRESS", Components := [], Notify := .known true,
    LastUpdated := .known "then" }

/-- A stub remote that stores the template `tpl-1` of page `page-1`, with notify set and a
subdomain other than that of `sample.persisted`. -/
def sample.remote : stub.Remote :=
  { templates := [("page-1", "tpl-1",
      { ID := some "tpl-1", Subdomain := some "other", Name := some "remote name",
        Type_ := some "MAINTENANCE", Message := some "remote message",
        Status := some "COMPLETED", Notify := some true,
        Components := [{ ID := some "link-1", ComponentID := some "cmp-9",
                         Status := some "OPERATIONAL" }] })] }

/-- The desired document `sample.desired` with a status outside the fixed set. -/
def sample.bogus : templateResourceModel :=
  { sample.desired with Status := .known "BOGUS" }

/-- A remote that cannot be reached: every call fails with the error `err`. -/
def stub.failing (err : String) : is.Client Unit where
  CreateTemplate := fun _ _ r => (.error err, r)
  GetTemplate := fun _ _ r => (.error err, r)
  UpdateTemplate := fun _ _ _ r => (.error err, r)
  DeleteTemplate := fun _ _ r => (some err, r)

/-! ## Auxiliary lemmas -/

/-- Appending one diagnostic of error severity leaves a slice that has an error. -/
theorem diag.Diagnostics.HasError_Append_error (ds : diag.Diagnostics) (d : diag.Diagnostic)
    (hd : d.Severity = .SeverityError) :
    diag.Diagnostics.HasError (diag.Diagnostics.Append ds [d]) = true := by
  unfold diag.Diagnostics.Append
  simp only [List.foldl_cons, List.foldl_nil]
  by_cases hc : diag.Diagnostics.Contains ds d = true
  · rw [if_pos hc]
    unfold diag.Diagnostics.Contains at hc
    unfold diag.Diagnostics.HasError
    rw [List.any_eq_true] at hc ⊢
    obtain ⟨e, he, heq⟩ := hc
    have : e = d := of_decide_eq_true heq
    exact ⟨e, he, by simp [this, hd]⟩
  · rw [if_neg hc]
    unfold diag.Diagnostics.HasError
    simp [hd]

/-- A slice after `AddError` has an error. -/
theorem diag.Diagnostics.HasError_AddError (ds : diag.Diagnostics) (summary detail : String) :
    diag.Diagnostics.HasError (diag.Diagnostics.AddError ds summary detail) = true :=
  diag.Diagnostics.HasError_Append_error ds _ rfl

/-- A slice after `AddAttributeError` has an error. -/
theorem diag.Diagnostics.HasError_AddAttributeError (ds : diag.Diagnostics)
    (path summary detail : String) :
    diag.Diagnostics.HasError (diag.Diagnostics.AddAttributeError ds path summary detail)
      = true :=
  diag.Diagnostics.HasError_Append_error ds _ rfl

/-- A slice without an error differs from every slice after `AddAttributeError`. -/
theorem diag.Diagnostics.ne_AddAttributeError (ds es : diag.Diagnostics)
    (path summary detail : String) (h : diag.Diagnostics.HasError ds = false) :
    ds ≠ diag.Diagnostics.AddAttributeError es path summary detail := by
  intro heq
  rw [heq, diag.Diagnostics.HasError_AddAttributeError] at h
  exact Bool.noConfusion h

/-- The append loop of Go over a slice is a map. -/
theorem foldl_append_singleton {α β : Type} (f : α → β) (xs : List α) (init : List β) :
    xs.foldl (fun acc x => acc ++ [f x]) init = init ++ xs.map f := by
  induction xs generalizing init with
  | nil => simp
  | cons x xs ih => simp [ih]

/-! ## Configuration resolver -/

/-- Claim C1, counterexample: with the configured credential the empty string `""` and the
environment variable `INSTATUS_APIKEY` the non-empty `"X"`, Configure does not resolve to
`"X"`: it reports the missing-credential error and hands out no client. -/
theorem Configure_empty_configured_not_resolved :
    (instatusProvider.Configure (fun key => key)
        (fun name => if name = "INSTATUS_APIKEY" then "X" else "")
        { Config := { diags := [], value := { ApiKey := .known "" } } }
        (provider.ConfigureResponse.fresh String)).DataSourceData = none ∧
    (instatusProvider.Configure (fun key => key)
        (fun name => if name = "INSTATUS_APIKEY" then "X" else "")
        { Config := { diags := [], value := { ApiKey := .known "" } } }
        (provider.ConfigureResponse.fresh String)).ResourceData = none ∧
    (instatusProvider.Configure (fun key => key)
        (fun name => if name = "INSTATUS_APIKEY" then "X" else "")
        { Config := { diags := [], value := { ApiKey := .known "" } } }
        (provider.ConfigureResponse.fresh String)).Diagnostics =
      [diag.NewAttributeErrorDiagnostic "apiKey" "Missing Instatus API Key"
        missingApiKeyDetail] := by
  refine ⟨?_, ?_, ?_⟩ <;> rfl

/-- Claim C1, amended: when the configured credential is unset (null) and the environment
variable `INSTATUS_APIKEY` is a non-empty `key`, or when the configured credential is a
known non-empty `key` (whatever the environment holds), Configure succeeds (it adds no
diagnostic) and hands the client built with `key` to data sources and resources. -/
theorem Configure_resolved {κ : Type} (NewClient : String → κ) (Getenv : String → String)
    (req : provider.ConfigureRequest) (resp : provider.ConfigureResponse κ) (key : String)
    (hget : diag.Diagnostics.HasError
      (diag.Diagnostics.Append resp.Diagnostics req.Config.diags) = false)
    (hkey : key ≠ "")
    (hsrc : (req.Config.value.ApiKey = .null ∧ Getenv "INSTATUS_APIKEY" = key) ∨
      req.Config.value.ApiKey = .known key) :
    (instatusProvider.Configure NewClient Getenv req resp).Diagnostics =
      diag.Diagnostics.Append resp.Diagnostics req.Config.diags ∧
    diag.Diagnostics.HasError
      (instatusProvider.Configure NewClient Getenv req resp).Diagnostics = false ∧
    (instatusProvider.Configure NewClient Getenv req resp).DataSourceData =
      some (NewClient key) ∧
    (instatusProvider.Configure NewClient Getenv req resp).ResourceData =
      some (NewClient key) := by
  rcases hsrc with ⟨hnull, henv⟩ | hknown
  · simp [instatusProvider.Configure, hget, hnull, henv, hkey,
      basetypes.StringValue.IsUnknown, basetypes.StringValue.IsNull]
  · simp [instatusProvider.Configure, hget, hknown, hkey,
      basetypes.StringValue.IsUnknown, basetypes.StringValue.IsNull,
      basetypes.StringValue.ValueString]

/-- Witness of `Configure_resolved`: unset credential with `INSTATUS_APIKEY=X`, and
credential `Y` with `INSTATUS_APIKEY=X`. -/
theorem Configure_resolved_witness :
    (instatusProvider.Configure (fun key => key)
        (fun name => if name = "INSTATUS_APIKEY" then "X" else "")
        { Config := { diags := [], value := { ApiKey := .null } } }
        (provider.ConfigureResponse.fresh String)).ResourceData = some "X" ∧
    (instatusProvider.Configure (fun key => key)
        (fun name => if name = "INSTATUS_APIKEY" then "X" else "")
        { Config := { diags := [], value := { ApiKey := .known "Y" } } }
        (provider.ConfigureResponse.fresh String)).ResourceData = some "Y" :=
  ⟨(Configure_resolved (fun key => key)
      (fun name => if name = "INSTATUS_APIKEY" then "X" else "")
      { Config := { diags := [], value := { ApiKey := .null } } }
      (provider.ConfigureResponse.fresh String) "X" (by decide) (by decide)
      (Or.inl ⟨rfl, by decide⟩)).2.2.2,
   (Configure_resolved (fun key => key)
      (fun name => if name = "INSTATUS_APIKEY" then "X" else "")
      { Config := { diags := [], value := { ApiKey := .known "Y" } } }
      (provider.ConfigureResponse.fresh String) "Y" (by decide) (by decide)
      (Or.inr rfl)).2.2.2⟩

/-- Claim C2: whenever the configured credential is unknown, Configure fails with the
unknown-value error on `api_key`, for every environment, and leaves the client fields of
the response as they were: no client is constructed or handed out. -/
theorem Configure_unknown_fails {κ : Type} (NewClient : String → κ)
    (Getenv : String → String) (req : provider.ConfigureRequest)
    (resp : provider.ConfigureResponse κ)
    (hget : diag.Diagnostics.HasError
      (diag.Diagnostics.Append resp.Diagnostics req.Config.diags) = false)
    (hunknown : req.Config.value.ApiKey = .unknown) :
    (instatusProvider.Configure NewClient Getenv req resp).Diagnostics =
      diag.Diagnostics.AddAttributeError
        (diag.Diagnostics.Append resp.Diagnostics req.Config.diags)
        "api_key" "Unknown Instatus API Key" unknownApiKeyDetail ∧
    diag.Diagnostics.HasError
      (instatusProvider.Configure NewClient Getenv req resp).Diagnostics = true ∧
    (instatusProvider.Configure NewClient Getenv req resp).DataSourceData =
      resp.DataSourceData ∧
    (instatusProvider.Configure NewClient Getenv req resp).ResourceData =
      resp.ResourceData := by
  simp [instatusProvider.Configure, hget, hunknown, basetypes.StringValue.IsUnknown,
    diag.Diagnostics.HasError_AddAttributeError, path.Root]

/-- Witness of `Configure_unknown_fails`: unknown credential with `INSTATUS_APIKEY=X`. -/
theorem Configure_unknown_fails_witness :
    (instatusProvider.Configure (fun key => key)
        (fun name => if name = "INSTATUS_APIKEY" then "X" else "")
        { Config := { diags := [], value := { ApiKey := .unknown } } }
        (provider.ConfigureResponse.fresh String)).DataSourceData = none ∧
    (instatusProvider.Configure (fun key => key)
        (fun name => if name = "INSTATUS_APIKEY" then "X" else "")
        { Config := { diags := [], value := { ApiKey := .unknown } } }
        (provider.ConfigureResponse.fresh String)).ResourceData = none :=
  (Configure_unknown_fails (fun key => key)
      (fun name => if name = "INSTATUS_APIKEY" then "X" else "")
      { Config := { diags := [], value := { ApiKey := .unknown } } }
      (provider.ConfigureResponse.fresh String) (by decide) rfl).2.2

/-- Claim C3: for a configured credential that is not unknown, Configure fails with the
missing-credential error if and only if the credential after resolution (the configured
value, else the environment variable) is empty; then the client fields of the response
are left as they were, and otherwise Configure adds no diagnostic and hands out the client
built with the resolved, non-empty credential. -/
theorem Configure_missing_iff {κ : Type} (NewClient : String → κ)
    (Getenv : String → String) (req : provider.ConfigureRequest)
    (resp : provider.ConfigureResponse κ)
    (hget : diag.Diagnostics.HasError
      (diag.Diagnostics.Append resp.Diagnostics req.Config.diags) = false)
    (hknown : req.Config.value.ApiKey ≠ .unknown) :
    ((instatusProvider.Configure NewClient Getenv req resp).Diagnostics =
        diag.Diagnostics.AddAttributeError
          (diag.Diagnostics.Append resp.Diagnostics req.Config.diags)
          "apiKey" "Missing Instatus API Key" missingApiKeyDetail ↔
      spec.resolvedCredential req.Config.value.ApiKey (Getenv "INSTATUS_APIKEY") = "") ∧
    (spec.resolvedCredential req.Config.value.ApiKey (Getenv "INSTATUS_APIKEY") = "" →
      diag.Diagnostics.HasError
        (instatusProvider.Configure NewClient Getenv req resp).Diagnostics = true ∧
      (instatusProvider.Configure NewClient Getenv req resp).DataSourceData =
        resp.DataSourceData ∧
      (instatusProvider.Configure NewClient Getenv req resp).ResourceData =
        resp.ResourceData) ∧
    (spec.resolvedCredential req.Config.value.ApiKey (Getenv "INSTATUS_APIKEY") ≠ "" →
      diag.Diagnostics.HasError
        (instatusProvider.Configure NewClient Getenv req resp).Diagnostics = false ∧
      (instatusProvider.Configure NewClient Getenv req resp).DataSourceData =
        some (NewClient
          (spec.resolvedCredential req.Config.value.ApiKey (Getenv "INSTATUS_APIKEY"))) ∧
      (instatusProvider.Configure NewClient Getenv req resp).ResourceData =
        some (NewClient
          (spec.resolvedCredential req.Config.value.ApiKey (Getenv "INSTATUS_APIKEY")))) := by
  have hne := diag.Diagnostics.ne_AddAttributeError
    (diag.Diagnostics.Append resp.Diagnostics req.Config.diags)
    (diag.Diagnostics.Append resp.Diagnostics req.Config.diags)
    "apiKey" "Missing Instatus API Key" missingApiKeyDetail hget
  cases hk : req.Config.value.ApiKey with
  | unknown => exact absurd hk hknown
  | null =>
    by_cases he : Getenv "INSTATUS_APIKEY" = ""
    · simp [instatusProvider.Configure, hget, hk, he, spec.resolvedCredential,
        basetypes.StringValue.IsUnknown, basetypes.StringValue.IsNull,
        diag.Diagnostics.HasError_AddAttributeError, path.Root]
    · simp [instatusProvider.Configure, hget, hk, he, spec.resolvedCredential,
        basetypes.StringValue.IsUnknown, basetypes.StringValue.IsNull, hne]
  | known v =>
    by_cases he : v = ""
    · simp [instatusProvider.Configure, hget, hk, he, spec.resolvedCredential,
        basetypes.StringValue.IsUnknown, basetypes.StringValue.IsNull,
        basetypes.StringValue.ValueString,
        diag.Diagnostics.HasError_AddAttributeError, path.Root]
    · simp [instatusProvider.Configure, hget, hk, he, spec.resolvedCredential,
        basetypes.StringValue.IsUnknown, basetypes.StringValue.IsNull,
        basetypes.StringValue.ValueString, hne]

/-- Witness of `Configure_missing_iff`: unset credential and empty environment variable
give the missing-credential error and no client; credential `Y` gives the client built
with `Y`. -/
theorem Configure_missing_iff_witness :
    spec.resolvedCredential .null "" = "" ∧
    (diag.Diagnostics.HasError
        (instatusProvider.Configure (fun key => key) (fun _ => "")
          { Config := { diags := [], value := { ApiKey := .null } } }
          (provider.ConfigureResponse.fresh String)).Diagnostics = true ∧
      (instatusProvider.Configure (fun key => key) (fun _ => "")
          { Config := { diags := [], value := { ApiKey := .null } } }
          (provider.ConfigureResponse.fresh String)).DataSourceData = none ∧
      (instatusProvider.Configure (fun key => key) (fun _ => "")
          { Config := { diags := [], value := { ApiKey := .null } } }
          (provider.ConfigureResponse.fresh String)).ResourceData = none) ∧
    (instatusProvider.Configure (fun key => key) (fun _ => "")
        { Config := { diags := [], value := { ApiKey := .known "Y" } } }
        (provider.ConfigureResponse.fresh String)).ResourceData = some "Y" :=
  ⟨rfl,
   (Configure_missing_iff (fun key => key) (fun _ => "")
      { Config := { diags := [], value := { ApiKey := .null } } }
      (provider.ConfigureResponse.fresh String) (by decide) (by decide)).2.1 rfl,
   ((Configure_missing_iff (fun key => key) (fun _ => "")
      { Config := { diags := [], value := { ApiKey := .known "Y" } } }
      (provider.ConfigureResponse.fresh String) (by decide) (by decide)).2.2
        (by decide)).2.2⟩

/-! ## Template reconciler: what each method computes -/

/-- The loop of Read over the fetched components appends their images in order. -/
theorem Read_components_loop (cs : List is.TemplateComponent) (state : templateResourceModel) :
    cs.foldl
        (fun (state : templateResourceModel) (component : is.TemplateComponent) =>
          { state with
            Components := state.Components ++
              [{ ID := types.StringPointerValue component.ComponentID,
                 Status := types.StringPointerValue component.Status }] })
        state =
      { state with
        Components := state.Components ++ cs.map (fun component =>
          { ID := types.StringPointerValue component.ComponentID,
            Status := types.StringPointerValue component.Status }) } := by
  induction cs generalizing state with
  | nil => simp
  | cons c cs ih => simp [ih]

/-- Create, once the plan is decoded without error: one `CreateTemplate` call with the
request body of the plan; an error is reported and the state left alone, a success stores
the plan with the identifier of the response and the timestamp. -/
theorem Create_eq {σ : Type} (client : is.Client σ) (now : String)
    (req : resource.CreateRequest) (resp : resource.Response) (remote : σ)
    (hget : diag.Diagnostics.HasError
      (diag.Diagnostics.Append resp.Diagnostics req.Plan.diags) = false) :
    templateResource.Create client now req resp remote =
      match client.CreateTemplate req.Plan.value.PageID.ValueString
          (spec.requestBody req.Plan.value) remote with
      | (.error err, next) =>
        { resp := { State := resp.State,
                    Diagnostics := diag.Diagnostics.AddError
                      (diag.Diagnostics.Append resp.Diagnostics req.Plan.diags)
                      "Error creating template"
                      ("Could not create template, unexpected error: " ++ err) },
          calls := [is.Call.CreateTemplate req.Plan.value.PageID.ValueString
            (spec.requestBody req.Plan.value)],
          remote := next }
      | (.ok template, next) =>
        { resp := { State := some { req.Plan.value with
                      ID := types.StringPointerValue template.ID,
                      LastUpdated := types.StringValue now },
                    Diagnostics := diag.Diagnostics.Append resp.Diagnostics req.Plan.diags },
          calls := [is.Call.CreateTemplate req.Plan.value.PageID.ValueString
            (spec.requestBody req.Plan.value)],
          remote := next } := by
  unfold templateResource.Create spec.requestBody
  simp only [hget, foldl_append_singleton, List.nil_append]
  rfl

/-- Read, once the state is decoded without error: one `GetTemplate` call keyed by page id
and id; an error is reported and the state left alone, a success overwrites name, type,
message, status, notify and the component list and nothing else. -/
theorem Read_eq {σ : Type} (client : is.Client σ)
    (req : resource.ReadRequest) (resp : resource.Response) (remote : σ)
    (hget : diag.Diagnostics.HasError
      (diag.Diagnostics.Append resp.Diagnostics req.State.diags) = false) :
    templateResource.Read client req resp remote =
      match client.GetTemplate req.State.value.PageID.ValueString
          req.State.value.ID.ValueString remote with
      | (.error err, next) =>
        { resp := { State := resp.State,
                    Diagnostics := diag.Diagnostics.AddError
                      (diag.Diagnostics.Append resp.Diagnostics req.State.diags)
                      "Error Reading Instatus Template"
                      ("Could not read Instatus template ID " ++
                        req.State.value.ID.ValueString ++ ": " ++ err) },
          calls := [is.Call.GetTemplate req.State.value.PageID.ValueString
            req.State.value.ID.ValueString],
          remote := next }
      | (.ok template, next) =>
        { resp := { State := some { req.State.value with
                      Name := types.StringPointerValue template.Name,
                      Type_ := types.StringPointerValue template.Type_,
                      Message := types.StringPointerValue template.Message,
                      Status := types.StringPointerValue template.Status,
                      Notify := types.BoolPointerValue template.Notify,
                      Components := spec.fetchedComponents template },
                    Diagnostics := diag.Diagnostics.Append resp.Diagnostics req.State.diags },
          calls := [is.Call.GetTemplate req.State.value.PageID.ValueString
            req.State.value.ID.ValueString],
          remote := next } := by
  unfold templateResource.Read spec.fetchedComponents
  simp only [hget, Read_components_loop, List.nil_append]
  rfl

/-- Update, once the plan is decoded without error: one `UpdateTemplate` call keyed by the
page id and id of the plan, with the request body of the plan; an error is reported and
the state left alone, a success stores the plan with the timestamp. -/
theorem Update_eq {σ : Type} (client : is.Client σ) (now : String)
    (req : resource.UpdateRequest) (resp : resource.Response) (remote : σ)
    (hget : diag.Diagnostics.HasError
      (diag.Diagnostics.Append resp.Diagnostics req.Plan.diags) = false) :
    templateResource.Update client now req resp remote =
      match client.UpdateTemplate req.Plan.value.PageID.ValueString
          req.Plan.value.ID.ValueString (spec.requestBody req.Plan.value) remote with
      | (.error err, next) =>
        { resp := { State := resp.State,
                    Diagnostics := diag.Diagnostics.AddError
                      (diag.Diagnostics.Append resp.Diagnostics req.Plan.diags)
                      "Error Updating Instatus Template"
                      ("Could not update template, unexpected error: " ++ err) },
          calls := [is.Call.UpdateTemplate req.Plan.value.PageID.ValueString
            req.Plan.value.ID.ValueString (spec.requestBody req.Plan.value)],
          remote := next }
      | (.ok _, next) =>
        { resp := { State := some { req.Plan.value with
                      LastUpdated := types.StringValue now },
                    Diagnostics := diag.Diagnostics.Append resp.Diagnostics req.Plan.diags },
          calls := [is.Call.UpdateTemplate req.Plan.value.PageID.ValueString
            req.Plan.value.ID.ValueString (spec.requestBody req.Plan.value)],
          remote := next } := by
  unfold templateResource.Update spec.requestBody
  simp only [hget, foldl_append_singleton, List.nil_append]
  rfl

/-- Delete, once the state is decoded without error: one `DeleteTemplate` call keyed by
page id and id; an error is reported, a success leaves the response as it is. -/
theorem Delete_eq {σ : Type} (client : is.Client σ)
    (req : resource.DeleteRequest) (resp : resource.Response) (remote : σ)
    (hget : diag.Diagnostics.HasError
      (diag.Diagnostics.Append resp.Diagnostics req.State.diags) = false) :
    templateResource.Delete client req resp remote =
      match client.DeleteTemplate req.State.value.PageID.ValueString
          req.State.value.ID.ValueString remote with
      | (some err, next) =>
        { resp := { State := resp.State,
                    Diagnostics := diag.Diagnostics.AddError
                      (diag.Diagnostics.Append resp.Diagnostics req.State.diags)
                      "Error Deleting Instatus Template"
                      ("Could not delete template, unexpected error: " ++ err) },
          calls := [is.Call.DeleteTemplate req.State.value.PageID.ValueString
            req.State.value.ID.ValueString],
          remote := next }
      | (none, next) =>
        { resp := { State := resp.State,
                    Diagnostics := diag.Diagnostics.Append resp.Diagnostics req.State.diags },
          calls := [is.Call.DeleteTemplate req.State.value.PageID.ValueString
            req.State.value.ID.ValueString],
          remote := next } := by
  unfold templateResource.Delete
  simp only [hget]
  rfl

/-! ## Create then Read -/

/-- A string value that is not unknown survives the way to a pointer and back. -/
theorem StringPointerValue_ValueStringPointer (s : basetypes.StringValue)
    (h : s.IsUnknown = false) : types.StringPointerValue s.ValueStringPointer = s := by
  cases s with
  | null => rfl
  | unknown => exact Bool.noConfusion h
  | known v => rfl

/-- A boolean value that is not unknown survives the way to a pointer and back. -/
theorem BoolPointerValue_ValueBoolPointer (b : basetypes.BoolValue)
    (h : b.IsUnknown = false) : types.BoolPointerValue b.ValueBoolPointer = b := by
  cases b with
  | null => rfl
  | unknown => exact Bool.noConfusion h
  | known v => rfl

/-- The stub finds the template it has just stored. -/
theorem stub.lookup_cons (pageID templateID : String) (t : is.Template)
    (rest : List (String × String × is.Template)) :
    stub.Remote.lookup { templates := (pageID, templateID, t) :: rest } pageID templateID
      = some t := by
  simp [stub.Remote.lookup, List.find?]

/-- Claim C4, counterexample: a document with one component `cmp-1`, created on the stub
remote that stores the body and returns it unchanged and then read back, has a component
whose id is null, not `cmp-1`: Create sends the id in the field `ID` and Read takes it
from the field `ComponentID`. -/
theorem create_read_loses_component_id :
    ((createThenRead (stub.client "tpl-1" id) "now"
        { ID := .unknown, PageID := .known "page-1", Subdomain := .known "sub",
          Name := .known "n", Type_ := .known "INCIDENT", Message := .known "m",
          Status := .known "RESOLVED",
          Components := [{ ID := .known "cmp-1", Status := .known "OPERATIONAL" }],
          Notify := .null, LastUpdated := .unknown }
        { templates := [] }).resp.State.map (fun state => state.Components)) =
      some [{ ID := .null, Status := .known "OPERATIONAL" }] ∧
    ((createThenRead (stub.client "tpl-1" id) "now"
        { ID := .unknown, PageID := .known "page-1", Subdomain := .known "sub",
          Name := .known "n", Type_ := .known "INCIDENT", Message := .known "m",
          Status := .known "RESOLVED",
          Components := [{ ID := .known "cmp-1", Status := .known "OPERATIONAL" }],
          Notify := .null, LastUpdated := .unknown }
        { templates := [] }).resp.State.map (fun state => state.Components)) ≠
      some [{ ID := .known "cmp-1", Status := .known "OPERATIONAL" }] := by
  constructor
  · rfl
  · decide

/-- Create then Read on the stub remote, for any rendering `view` that keeps the
identifier: the state is the plan with the identifier, the timestamp, and the fields that
Read overwrites taken from the rendering of the stored body. -/
theorem createThenRead_stub (newID now : String) (view : is.Template → is.Template)
    (plan : templateResourceModel) (r : stub.Remote)
    (hview : ∀ t, (view t).ID = t.ID) :
    (createThenRead (stub.client newID view) now plan r).resp =
      { State := some { plan with
          ID := .known newID,
          LastUpdated := .known now,
          Name := types.StringPointerValue
            (view { spec.requestBody plan with ID := some newID }).Name,
          Type_ := types.StringPointerValue
            (view { spec.requestBody plan with ID := some newID }).Type_,
          Message := types.StringPointerValue
            (view { spec.requestBody plan with ID := some newID }).Message,
          Status := types.StringPointerValue
            (view { spec.requestBody plan with ID := some newID }).Status,
          Notify := types.BoolPointerValue
            (view { spec.requestBody plan with ID := some newID }).Notify,
          Components := spec.fetchedComponents
            (view { spec.requestBody plan with ID := some newID }) },
        Diagnostics := [] } := by
  have h0 : diag.Diagnostics.HasError (diag.Diagnostics.Append [] []) = false := rfl
  have hsome : ∀ v : String, types.StringPointerValue (some v) = .known v := fun _ => rfl
  unfold createThenRead
  rw [Create_eq _ _ _ _ _ h0]
  simp only [stub.client, hview, hsome, h0]
  rw [Read_eq _ _ _ _ h0]
  simp [stub.client, stub.lookup_cons, basetypes.StringValue.ValueString,
    types.StringValue, diag.Diagnostics.Append]

/-- Claim C4, amended: for every valid desired document, Create followed immediately by
Read against the stub remote that stores the created body and returns it unchanged yields
a persisted state whose name, type, message, status and notify equal those of the input and
whose component list has one element per input component, in order, with the status of the
input; the id of each component is read from the field `ComponentID` of the remote, which
the created body leaves unset, so it is null. Against the stub that reports the identifier
it was sent as `ComponentID`, the component ids equal those of the input as well. -/
theorem create_read_round_trip (newID now : String) (plan : templateResourceModel)
    (r : stub.Remote) (hvalid : plan.Determined = true) :
    (createThenRead (stub.client newID id) now plan r).resp =
      { State := some { plan with
          ID := .known newID,
          LastUpdated := .known now,
          Components := plan.Components.map (fun component =>
            { ID := .null, Status := component.Status }) },
        Diagnostics := [] } ∧
    (createThenRead (stub.client newID stub.withComponentID) now plan r).resp =
      { State := some { plan with ID := .known newID, LastUpdated := .known now },
        Diagnostics := [] } := by
  simp only [templateResourceModel.Determined, Bool.and_eq_true, Bool.not_eq_true',
    List.all_eq_true] at hvalid
  obtain ⟨⟨⟨⟨⟨hName, hType⟩, hMessage⟩, hStatus⟩, hNotify⟩, hComponents⟩ := hvalid
  constructor
  · rw [createThenRead_stub newID now id plan r (fun _ => rfl)]
    simp only [id, spec.requestBody, spec.fetchedComponents, List.map_map,
      StringPointerValue_ValueStringPointer _ hName,
      StringPointerValue_ValueStringPointer _ hType,
      StringPointerValue_ValueStringPointer _ hMessage,
      StringPointerValue_ValueStringPointer _ hStatus,
      BoolPointerValue_ValueBoolPointer _ hNotify]
    congr 3
    apply List.map_congr_left
    intro c hc
    have hnone : types.StringPointerValue none = .null := rfl
    simp [hnone, StringPointerValue_ValueStringPointer _ (hComponents c hc).2]
  · rw [createThenRead_stub newID now stub.withComponentID plan r (fun _ => rfl)]
    simp only [stub.withComponentID, spec.requestBody, spec.fetchedComponents, List.map_map,
      StringPointerValue_ValueStringPointer _ hName,
      StringPointerValue_ValueStringPointer _ hType,
      StringPointerValue_ValueStringPointer _ hMessage,
      StringPointerValue_ValueStringPointer _ hStatus,
      BoolPointerValue_ValueBoolPointer _ hNotify]
    congr 3
    conv_rhs => rw [← List.map_id plan.Components]
    apply List.map_congr_left
    intro c hc
    simp [StringPointerValue_ValueStringPointer _ (hComponents c hc).1,
      StringPointerValue_ValueStringPointer _ (hComponents c hc).2]

/-- Witness of `create_read_round_trip`: the sample document, whose two components share
an identifier, on the empty stub. -/
theorem create_read_round_trip_witness :
    sample.desired.Determined = true ∧
    (createThenRead (stub.client "tpl-1" stub.withComponentID) "now" sample.desired
        { templates := [] }).resp =
      { State := some { sample.desired with ID := .known "tpl-1", LastUpdated := .known "now" },
        Diagnostics := [] } :=
  ⟨by decide,
   (create_read_round_trip "tpl-1" "now" sample.desired { templates := [] } (by decide)).2⟩

/-! ## Update is full-replace -/

/-- Claim C5: the request body passed to `UpdateTemplate` is a function of the plan only:
two Updates with the same plan issue the same call, whatever the prior state, the remote,
the client, the response and the time; the body is the full desired document. When notify
is unset in the plan, the Notify of the body is nil, and the state written by a successful
Update (the plan with the new timestamp) has notify unset, whatever the prior state had. -/
theorem Update_full_replace {σ τ : Type} (client : is.Client σ) (client2 : is.Client τ)
    (now now2 : String) (req req2 : resource.UpdateRequest)
    (resp resp2 : resource.Response) (remote : σ) (remote2 : τ)
    (hplan : req2.Plan = req.Plan)
    (hget : diag.Diagnostics.HasError
      (diag.Diagnostics.Append resp.Diagnostics req.Plan.diags) = false)
    (hget2 : diag.Diagnostics.HasError
      (diag.Diagnostics.Append resp2.Diagnostics req2.Plan.diags) = false) :
    (templateResource.Update client now req resp remote).calls =
      (templateResource.Update client2 now2 req2 resp2 remote2).calls ∧
    (templateResource.Update client now req resp remote).calls =
      [is.Call.UpdateTemplate req.Plan.value.PageID.ValueString
        req.Plan.value.ID.ValueString (spec.requestBody req.Plan.value)] ∧
    (diag.Diagnostics.HasError
        (templateResource.Update client now req resp remote).resp.Diagnostics = false →
      (templateResource.Update client now req resp remote).resp.State =
        some { req.Plan.value with LastUpdated := .known now }) ∧
    (req.Plan.value.Notify = .null →
      (∃ body, (templateResource.Update client now req resp remote).calls =
          [is.Call.UpdateTemplate req.Plan.value.PageID.ValueString
            req.Plan.value.ID.ValueString body] ∧ body.Notify = none) ∧
      (diag.Diagnostics.HasError
          (templateResource.Update client now req resp remote).resp.Diagnostics = false →
        (templateResource.Update client now req resp remote).resp.State.map
          (fun state => state.Notify) = some .null)) := by
  have hcalls : (templateResource.Update client now req resp remote).calls =
      [is.Call.UpdateTemplate req.Plan.value.PageID.ValueString
        req.Plan.value.ID.ValueString (spec.requestBody req.Plan.value)] := by
    rw [Update_eq client now req resp remote hget]
    rcases client.UpdateTemplate req.Plan.value.PageID.ValueString
      req.Plan.value.ID.ValueString (spec.requestBody req.Plan.value) remote
      with ⟨_ | _, _⟩ <;> rfl
  have hcalls2 : (templateResource.Update client2 now2 req2 resp2 remote2).calls =
      [is.Call.UpdateTemplate req.Plan.value.PageID.ValueString
        req.Plan.value.ID.ValueString (spec.requestBody req.Plan.value)] := by
    rw [Update_eq client2 now2 req2 resp2 remote2 hget2, hplan]
    rcases client2.UpdateTemplate req.Plan.value.PageID.ValueString
      req.Plan.value.ID.ValueString (spec.requestBody req.Plan.value) remote2
      with ⟨_ | _, _⟩ <;> rfl
  have hstate : diag.Diagnostics.HasError
        (templateResource.Update client now req resp remote).resp.Diagnostics = false →
      (templateResource.Update client now req resp remote).resp.State =
        some { req.Plan.value with LastUpdated := .known now } := by
    rw [Update_eq client now req resp remote hget]
    rcases client.UpdateTemplate req.Plan.value.PageID.ValueString
      req.Plan.value.ID.ValueString (spec.requestBody req.Plan.value) remote
      with ⟨err | t, next⟩
    · intro h
      simp only [diag.Diagnostics.HasError_AddError] at h
      exact Bool.noConfusion h
    · intro _
      rfl
  refine ⟨by rw [hcalls, hcalls2], hcalls, hstate, ?_⟩
  intro hnotify
  refine ⟨⟨_, hcalls, ?_⟩, ?_⟩
  · simp [spec.requestBody, hnotify, basetypes.BoolValue.ValueBoolPointer]
  · intro h
    rw [hstate h]
    simp [hnotify]

/-- Witness of `Update_full_replace`: the stored template and the prior state have notify
set, the plan leaves notify unset; the state written has notify unset. -/
theorem Update_full_replace_witness :
    sample.persisted.Notify = .known true ∧
    (templateResource.Update (stub.client "new" id) "now"
        { Plan := { diags := [], value :=
            host.planUpdate sample.desired sample.persisted },
          State := { diags := [], value := sample.persisted } }
        { State := some sample.persisted, Diagnostics := [] }
        sample.remote).resp.State.map (fun state => state.Notify) = some .null :=
  ⟨rfl,
   ((Update_full_replace (stub.client "new" id) (stub.client "new" id) "now" "now"
      { Plan := { diags := [], value :=
          host.planUpdate sample.desired sample.persisted },
        State := { diags := [], value := sample.persisted } }
      { Plan := { diags := [], value :=
          host.planUpdate sample.desired sample.persisted },
        State := { diags := [], value := sample.persisted } }
      { State := some sample.persisted, Diagnostics := [] }
      { State := some sample.persisted, Diagnostics := [] }
      sample.remote sample.remote rfl (by decide) (by decide)).2.2.2 rfl).2 (by decide)⟩

/-! ## The remote identifier -/

/-- On a state value that is not null, with the planned value unknown and no configuration
value, the plan modifier of `id` plans the state value. -/
theorem UseStateForUnknown_of_state (StateValue : basetypes.StringValue)
    (h : StateValue.IsNull = false) :
    stringplanmodifier.UseStateForUnknown StateValue .unknown .null = StateValue := by
  simp [stringplanmodifier.UseStateForUnknown, h, basetypes.StringValue.IsUnknown]

/-- An update of a configuration that fails validation: Update is not invoked. -/
theorem host.update_invalid {σ : Type} (client : is.Client σ) (now : String)
    (config prior : templateResourceModel) (remote : σ)
    (hv : diag.Diagnostics.HasError (templateResource.Schema.Validate config) = true) :
    host.update client now config prior remote =
      { resp := { State := some prior,
                  Diagnostics := templateResource.Schema.Validate config },
        calls := [], remote := remote } := by
  unfold host.update
  simp only [hv, if_true]

/-- An update of a configuration that passes validation is Update on the plan. -/
theorem host.update_valid {σ : Type} (client : is.Client σ) (now : String)
    (config prior : templateResourceModel) (remote : σ)
    (hv : diag.Diagnostics.HasError (templateResource.Schema.Validate config) = false) :
    host.update client now config prior remote =
      templateResource.Update client now
        { Plan := { diags := [], value := host.planUpdate config prior },
          State := { diags := [], value := prior } }
        { State := some prior, Diagnostics := [] } remote := by
  unfold host.update
  simp only [hv, Bool.false_eq_true, if_false]

/-- A create of a configuration that fails validation: Create is not invoked. -/
theorem host.create_invalid {σ : Type} (client : is.Client σ) (now : String)
    (config : templateResourceModel) (remote : σ)
    (hv : diag.Diagnostics.HasError (templateResource.Schema.Validate config) = true) :
    host.create client now config remote =
      { resp := { State := none,
                  Diagnostics := templateResource.Schema.Validate config },
        calls := [], remote := remote } := by
  unfold host.create
  simp only [hv, if_true]

/-- A successful step returns a state with the identifier of the state it was fed, when
that identifier is not null or the step is a Read. -/
theorem Step.run_ID {σ : Type} (client : is.Client σ) (state : templateResourceModel)
    (remote : σ) (step : Step) (next : templateResourceModel)
    (hid : state.ID.IsNull = false ∨ step = .Read)
    (hok : diag.Diagnostics.HasError (step.run client state remote).resp.Diagnostics = false)
    (hstate : (step.run client state remote).resp.State = some next) :
    next.ID = state.ID := by
  have h0 : diag.Diagnostics.HasError (diag.Diagnostics.Append [] []) = false := rfl
  cases step with
  | Update desired now =>
    have hnull : state.ID.IsNull = false := by
      rcases hid with h | h
      · exact h
      · exact Step.noConfusion h
    simp only [Step.run] at hok hstate
    cases hv : diag.Diagnostics.HasError (templateResource.Schema.Validate desired) with
    | true =>
      rw [host.update_invalid client now desired state remote hv] at hok
      simp only [hv] at hok
      exact Bool.noConfusion hok
    | false =>
      rw [host.update_valid client now desired state remote hv,
        Update_eq _ _ _ _ _ h0] at hok hstate
      simp only at hok hstate
      generalize client.UpdateTemplate
        (host.planUpdate desired state).PageID.ValueString
        (host.planUpdate desired state).ID.ValueString
        (spec.requestBody (host.planUpdate desired state)) remote
        = res at hok hstate
      rcases res with ⟨err | t, after⟩
      · simp only [diag.Diagnostics.HasError_AddError] at hok
        exact Bool.noConfusion hok
      · simp only [Option.some.injEq] at hstate
        rw [← hstate]
        exact UseStateForUnknown_of_state state.ID hnull
  | Read =>
    simp only [Step.run] at hok hstate
    rw [Read_eq _ _ _ _ h0] at hok hstate
    simp only at hok hstate
    generalize client.GetTemplate state.PageID.ValueString state.ID.ValueString remote
      = res at hok hstate
    rcases res with ⟨err | t, after⟩
    · simp only [diag.Diagnostics.HasError_AddError] at hok
      exact Bool.noConfusion hok
    · simp only [Option.some.injEq] at hstate
      rw [← hstate]

/-- Every state of a lifecycle has the identifier of the state the lifecycle starts from,
when that identifier is not null or every step is a Read. -/
theorem lifecycleStates_ID {σ : Type} (client : is.Client σ) (steps : List Step) :
    ∀ (state : templateResourceModel) (remote : σ),
      (state.ID.IsNull = false ∨ ∀ step ∈ steps, step = Step.Read) →
      ∀ st ∈ lifecycleStates client state remote steps, st.ID = state.ID := by
  induction steps with
  | nil =>
    intro state remote _ st hst
    simp [lifecycleStates] at hst
  | cons step rest ih =>
    intro state remote hid st hst
    unfold lifecycleStates at hst
    simp only at hst
    by_cases hok : diag.Diagnostics.HasError (step.run client state remote).resp.Diagnostics
        = true
    · simp [hok] at hst
    · have hok2 : diag.Diagnostics.HasError
          (step.run client state remote).resp.Diagnostics = false := by
        simpa using hok
      cases hstate : (step.run client state remote).resp.State with
      | none => simp [hok2, hstate] at hst
      | some next =>
        have hid1 : state.ID.IsNull = false ∨ step = Step.Read := by
          rcases hid with h | h
          · exact Or.inl h
          · exact Or.inr (h step (List.mem_cons_self _ _))
        have hnext := Step.run_ID client state remote step next hid1 hok2 hstate
        have hid2 : next.ID.IsNull = false ∨ ∀ step ∈ rest, step = Step.Read := by
          rcases hid with h | h
          · exact Or.inl (by rw [hnext]; exact h)
          · exact Or.inr (fun x hx => h x (List.mem_cons_of_mem _ hx))
        simp only [hok2, hstate, Bool.false_eq_true, if_false, List.mem_cons] at hst
        rcases hst with rfl | hmem
        · exact hnext
        · rw [ih next _ hid2 st hmem, hnext]

/-- Claim C6: after a successful Create whose response carries an identifier, for every
sequence of Updates followed by Reads, each driven by the host and fed the state produced
by the previous step, the state returned by Create and the state returned by every
successful step carry the identifier of the Create response
(`types.StringPointerValue(template.ID)`), whatever the Update and Read responses hold.
When no Update follows, the same holds for a Create response without an identifier. -/
theorem remote_identifier_invariant {σ : Type} (client : is.Client σ) (now : String)
    (req : resource.CreateRequest) (resp : resource.Response) (remote next : σ)
    (template : is.Template) (updates : List (templateResourceModel × String))
    (reads : Nat) (st : templateResourceModel)
    (hget : diag.Diagnostics.HasError
      (diag.Diagnostics.Append resp.Diagnostics req.Plan.diags) = false)
    (hcreate : client.CreateTemplate req.Plan.value.PageID.ValueString
      (spec.requestBody req.Plan.value) remote = (.ok template, next))
    (hid : template.ID ≠ none ∨ updates = [])
    (hst : st ∈ lifecycleStates client
      { req.Plan.value with
        ID := types.StringPointerValue template.ID, LastUpdated := .known now }
      next
      (updates.map (fun u => Step.Update u.1 u.2) ++ List.replicate reads Step.Read)) :
    (templateResource.Create client now req resp remote).resp.State =
      some { req.Plan.value with
        ID := types.StringPointerValue template.ID, LastUpdated := .known now } ∧
    (templateResource.Create client now req resp remote).remote = next ∧
    st.ID = types.StringPointerValue template.ID := by
  refine ⟨?_, ?_, ?_⟩
  · rw [Create_eq client now req resp remote hget, hcreate]
    rfl
  · rw [Create_eq client now req resp remote hget, hcreate]
  · refine lifecycleStates_ID client _ _ _ ?_ st hst
    rcases hid with h | h
    · left
      cases hT : template.ID with
      | none => exact absurd hT h
      | some v => rfl
    · right
      intro step hstep
      rw [h, List.map_nil, List.nil_append] at hstep
      exact List.eq_of_mem_replicate hstep

/-- Witness of `remote_identifier_invariant`: on the stub, Create, one Update that renames
the template and two Reads all succeed, and the state returned by the Update carries the
identifier `tpl-1` assigned at Create. -/
theorem remote_identifier_invariant_witness :
    (lifecycleStates (stub.client "tpl-1" id)
        { sample.desired with ID := .known "tpl-1", LastUpdated := .known "now" }
        { templates := [("page-1", "tpl-1",
            { spec.requestBody sample.desired with ID := some "tpl-1" })] }
        ([({ sample.desired with Name := .known "n2" }, "later")].map
            (fun u => Step.Update u.1 u.2) ++ List.replicate 2 Step.Read)).length = 3 ∧
    ({ sample.desired with
        ID := .known "tpl-1", Name := .known "n2", LastUpdated := .known "later" } :
      templateResourceModel).ID = types.StringPointerValue (some "tpl-1") :=
  ⟨by decide,
   (remote_identifier_invariant (stub.client "tpl-1" id) "now"
      { Plan := { diags := [], value := sample.desired } }
      { State := none, Diagnostics := [] }
      { templates := [] }
      { templates := [("page-1", "tpl-1",
          { spec.requestBody sample.desired with ID := some "tpl-1" })] }
      { spec.requestBody sample.desired with ID := some "tpl-1" }
      [({ sample.desired with Name := .known "n2" }, "later")] 2
      { sample.desired with
        ID := .known "tpl-1", Name := .known "n2", LastUpdated := .known "later" }
      (by decide) rfl (Or.inl (by decide)) (by decide)).2.2⟩

/-! ## Read -/

/-- Claim C7, counterexample: the state has subdomain `sub`, the template fetched by
`GetTemplate` has subdomain `other`; after a successful Read the state still has `sub`:
Read does not overwrite the subdomain. -/
theorem Read_keeps_subdomain :
    (stub.client "new" id).GetTemplate sample.persisted.PageID.ValueString
        sample.persisted.ID.ValueString sample.remote =
      (.ok { ID := some "tpl-1", Subdomain := some "other", Name := some "remote name",
             Type_ := some "MAINTENANCE", Message := some "remote message",
             Status := some "COMPLETED", Notify := some true,
             Components := [{ ID := some "link-1", ComponentID := some "cmp-9",
                              Status := some "OPERATIONAL" }] }, sample.remote) ∧
    diag.Diagnostics.HasError
      (templateResource.Read (stub.client "new" id)
        { State := { diags := [], value := sample.persisted } }
        { State := some sample.persisted, Diagnostics := [] }
        sample.remote).resp.Diagnostics = false ∧
    (templateResource.Read (stub.client "new" id)
        { State := { diags := [], value := sample.persisted } }
        { State := some sample.persisted, Diagnostics := [] }
        sample.remote).resp.State.map (fun state => state.Subdomain) =
      some (.known "sub") ∧
    (templateResource.Read (stub.client "new" id)
        { State := { diags := [], value := sample.persisted } }
        { State := some sample.persisted, Diagnostics := [] }
        sample.remote).resp.State.map (fun state => state.Subdomain) ≠
      some (types.StringPointerValue (some "other")) := by
  refine ⟨rfl, rfl, rfl, ?_⟩
  decide

/-- Claim C7, amended: on success Read overwrites name, type, message, status, notify and
the component list with the values fetched by `GetTemplate(page id, id)` (the id of a
component is the `ComponentID` of the remote), while the identifier, the page id, the
subdomain and last_updated are equal to their values in the input state. -/
theorem Read_overwrites {σ : Type} (client : is.Client σ) (req : resource.ReadRequest)
    (resp : resource.Response) (remote next : σ) (template : is.Template)
    (hget : diag.Diagnostics.HasError
      (diag.Diagnostics.Append resp.Diagnostics req.State.diags) = false)
    (hfetch : client.GetTemplate req.State.value.PageID.ValueString
      req.State.value.ID.ValueString remote = (.ok template, next)) :
    (templateResource.Read client req resp remote).resp.State =
      some { ID := req.State.value.ID,
             PageID := req.State.value.PageID,
             Subdomain := req.State.value.Subdomain,
             Name := types.StringPointerValue template.Name,
             Type_ := types.StringPointerValue template.Type_,
             Message := types.StringPointerValue template.Message,
             Status := types.StringPointerValue template.Status,
             Components := template.Components.map (fun component =>
               { ID := types.StringPointerValue component.ComponentID,
                 Status := types.StringPointerValue component.Status }),
             Notify := types.BoolPointerValue template.Notify,
             LastUpdated := req.State.value.LastUpdated } ∧
    (templateResource.Read client req resp remote).resp.Diagnostics =
      diag.Diagnostics.Append resp.Diagnostics req.State.diags ∧
    (templateResource.Read client req resp remote).calls =
      [is.Call.GetTemplate req.State.value.PageID.ValueString
        req.State.value.ID.ValueString] := by
  rw [Read_eq client req resp remote hget, hfetch]
  exact ⟨rfl, rfl, rfl⟩

/-- Witness of `Read_overwrites`: the sample state refreshed from the sample remote. -/
theorem Read_overwrites_witness :
    (templateResource.Read (stub.client "new" id)
        { State := { diags := [], value := sample.persisted } }
        { State := some sample.persisted, Diagnostics := [] }
        sample.remote).resp.State =
      some { ID := .known "tpl-1", PageID := .known "page-1", Subdomain := .known "sub",
             Name := .known "remote name", Type_ := .known "MAINTENANCE",
             Message := .known "remote message", Status := .known "COMPLETED",
             Components := [{ ID := .known "cmp-9", Status := .known "OPERATIONAL" }],
             Notify := .known true, LastUpdated := .known "then" } :=
  (Read_overwrites (stub.client "new" id)
      { State := { diags := [], value := sample.persisted } }
      { State := some sample.persisted, Diagnostics := [] }
      sample.remote sample.remote
      { ID := some "tpl-1", Subdomain := some "other", Name := some "remote name",
        Type_ := some "MAINTENANCE", Message := some "remote message",
        Status := some "COMPLETED", Notify := some true,
        Components := [{ ID := some "link-1", ComponentID := some "cmp-9",
                         Status := some "OPERATIONAL" }] }
      (by decide) rfl).1

/-! ## Enum validation -/

/-- An appended slice has an error when one of its parts has. -/
theorem diag.Diagnostics.HasError_append (a b : diag.Diagnostics) :
    diag.Diagnostics.HasError (a ++ b) =
      (diag.Diagnostics.HasError a || diag.Diagnostics.HasError b) := by
  simp [diag.Diagnostics.HasError, List.any_append]

/-- The validator `OneOf` gives an error on a known value outside its set. -/
theorem stringvalidator.OneOf_outside (values : List String) (path v : String)
    (h : v ∉ values) :
    diag.Diagnostics.HasError (stringvalidator.OneOf values path (.known v)) = true := by
  have hc : values.contains v = false := by simpa using h
  unfold stringvalidator.OneOf
  simp only [hc]
  rfl

/-- The rules of the nested attributes give an error as soon as one component has a known
status outside the component statuses. -/
theorem templateResource.Schema.Components_outside (cs : List templateComponentModel)
    (c : templateComponentModel) (v : String) (hc : c ∈ cs) (hv : c.Status = .known v)
    (hout : v ∉ componentStatuses) :
    ∀ i : Nat, diag.Diagnostics.HasError (templateResource.Schema.Components i cs) = true := by
  induction cs with
  | nil => exact absurd hc (List.not_mem_nil c)
  | cons x xs ih =>
    intro i
    unfold templateResource.Schema.Components
    simp only [diag.Diagnostics.HasError_append, Bool.or_eq_true]
    rcases List.mem_cons.mp hc with rfl | hmem
    · left
      right
      rw [hv]
      exact stringvalidator.OneOf_outside _ _ _ hout
    · right
      exact ih hmem (i + 1)

/-- Claim C8: a desired document whose type is a value outside the template types, whose
status is a value outside the template statuses, or which has a component whose status is
a value outside the component statuses (e.g. status `BOGUS`) fails the validation of the
schema, and a create or an update with such a document, driven by the host, records zero
calls on the remote client: the remote and the state are left as they were and the
response carries the validation error. -/
theorem enum_validation (config : templateResourceModel)
    (hbad : (∃ v, config.Type_ = .known v ∧ v ∉ templateTypes) ∨
      (∃ v, config.Status = .known v ∧ v ∉ templateStatuses) ∨
      (∃ c ∈ config.Components, ∃ v, c.Status = .known v ∧ v ∉ componentStatuses)) :
    diag.Diagnostics.HasError (templateResource.Schema.Validate config) = true ∧
    (∀ (σ : Type) (client : is.Client σ) (now : String) (prior : templateResourceModel)
        (remote : σ),
      ((host.create client now config remote).calls = [] ∧
        (host.create client now config remote).remote = remote ∧
        (host.create client now config remote).resp.State = none ∧
        diag.Diagnostics.HasError
          (host.create client now config remote).resp.Diagnostics = true) ∧
      ((host.update client now config prior remote).calls = [] ∧
        (host.update client now config prior remote).remote = remote ∧
        (host.update client now config prior remote).resp.State = some prior ∧
        diag.Diagnostics.HasError
          (host.update client now config prior remote).resp.Diagnostics = true)) := by
  have hv : diag.Diagnostics.HasError (templateResource.Schema.Validate config) = true := by
    unfold templateResource.Schema.Validate
    simp only [diag.Diagnostics.HasError_append, Bool.or_eq_true]
    rcases hbad with ⟨v, hv, hout⟩ | ⟨v, hv, hout⟩ | ⟨c, hc, v, hv, hout⟩
    · left; left; left; left; left; right
      rw [hv]
      exact stringvalidator.OneOf_outside _ _ _ hout
    · left; left; left; right
      rw [hv]
      exact stringvalidator.OneOf_outside _ _ _ hout
    · right
      exact templateResource.Schema.Components_outside _ c v hc hv hout 0
  refine ⟨hv, ?_⟩
  intro σ client now prior remote
  rw [host.create_invalid client now config remote hv,
    host.update_invalid client now config prior remote hv]
  exact ⟨⟨rfl, rfl, rfl, hv⟩, ⟨rfl, rfl, rfl, hv⟩⟩

/-- Witness of `enum_validation`: the sample document with status `BOGUS` fails validation
and its create on the empty stub records no call and stores nothing, while the create of
the sample document itself reaches the remote. -/
theorem enum_validation_witness :
    "BOGUS" ∉ templateStatuses ∧
    diag.Diagnostics.HasError (templateResource.Schema.Validate sample.bogus) = true ∧
    ((host.create (stub.client "tpl-1" id) "now" sample.bogus { templates := [] }).calls = [] ∧
      (host.create (stub.client "tpl-1" id) "now" sample.bogus { templates := [] }).remote =
        { templates := [] } ∧
      (host.create (stub.client "tpl-1" id) "now" sample.bogus { templates := [] }).resp.State
        = none ∧
      diag.Diagnostics.HasError
        (host.create (stub.client "tpl-1" id) "now" sample.bogus
          { templates := [] }).resp.Diagnostics = true) ∧
    (host.create (stub.client "tpl-1" id) "now" sample.desired { templates := [] }).calls =
      [is.Call.CreateTemplate "page-1" (spec.requestBody sample.desired)] :=
  ⟨by decide,
   (enum_validation sample.bogus (Or.inr (Or.inl ⟨"BOGUS", rfl, by decide⟩))).1,
   ((enum_validation sample.bogus (Or.inr (Or.inl ⟨"BOGUS", rfl, by decide⟩))).2
      stub.Remote (stub.client "tpl-1" id) "now" sample.persisted { templates := [] }).1,
   by decide⟩

/-! ## Delete -/

/-- Claim C9: for every persisted state, Delete issues exactly one call,
`DeleteTemplate(page id, id)`; when that call returns an error, Delete reports it as the
error diagnostic whose detail is the static description followed by the text of the error,
verbatim, and leaves the state alone; Delete reports success (no error diagnostic) if and
only if the remote call succeeded. -/
theorem Delete_unconditional {σ : Type} (client : is.Client σ)
    (req : resource.DeleteRequest) (resp : resource.Response) (remote : σ)
    (hget : diag.Diagnostics.HasError
      (diag.Diagnostics.Append resp.Diagnostics req.State.diags) = false) :
    (templateResource.Delete client req resp remote).calls =
      [is.Call.DeleteTemplate req.State.value.PageID.ValueString
        req.State.value.ID.ValueString] ∧
    (∀ err : String,
      (client.DeleteTemplate req.State.value.PageID.ValueString
        req.State.value.ID.ValueString remote).1 = some err →
      (templateResource.Delete client req resp remote).resp =
        { State := resp.State,
          Diagnostics := diag.Diagnostics.AddError
            (diag.Diagnostics.Append resp.Diagnostics req.State.diags)
            "Error Deleting Instatus Template"
            ("Could not delete template, unexpected error: " ++ err) }) ∧
    (diag.Diagnostics.HasError
        (templateResource.Delete client req resp remote).resp.Diagnostics = false ↔
      (client.DeleteTemplate req.State.value.PageID.ValueString
        req.State.value.ID.ValueString remote).1 = none) := by
  rw [Delete_eq client req resp remote hget]
  rcases client.DeleteTemplate req.State.value.PageID.ValueString
    req.State.value.ID.ValueString remote with ⟨_ | e, next⟩
  · refine ⟨rfl, ?_, ?_⟩
    · intro err h
      exact Option.noConfusion h
    · simp [hget]
  · refine ⟨rfl, ?_, ?_⟩
    · intro err h
      simp only [Option.some.injEq] at h
      rw [h]
    · simp [diag.Diagnostics.HasError_AddError]

/-- Witness of `Delete_unconditional`: Delete of the sample state on the empty stub, where
the identifier does not exist, reports the not-found error of the stub. -/
theorem Delete_unconditional_witness :
    (templateResource.Delete (stub.client "new" id)
        { State := { diags := [], value := sample.persisted } }
        { State := some sample.persisted, Diagnostics := [] }
        { templates := [] }).resp =
      { State := some sample.persisted,
        Diagnostics := [diag.NewErrorDiagnostic "Error Deleting Instatus Template"
          "Could not delete template, unexpected error: template not found"] } :=
  (Delete_unconditional (stub.client "new" id)
      { State := { diags := [], value := sample.persisted } }
      { State := some sample.persisted, Diagnostics := [] }
      { templates := [] } (by decide)).2.1 "template not found" rfl

/-! ## Fail-fast -/

/-- Claim C10: whenever the remote call made by Create, Read or Update returns an error,
the method fails: it adds one error diagnostic whose detail is a static description
followed by the text of the error, and it leaves the state of the response exactly as it
was before the call (for Create, which the host hands an empty state, no object with an id
or last_updated). -/
theorem fail_fast {σ : Type} (client : is.Client σ) (now : String)
    (resp : resource.Response) (remote next : σ) (err : String) :
    (∀ req : resource.CreateRequest,
      diag.Diagnostics.HasError
        (diag.Diagnostics.Append resp.Diagnostics req.Plan.diags) = false →
      client.CreateTemplate req.Plan.value.PageID.ValueString
        (spec.requestBody req.Plan.value) remote = (.error err, next) →
      (templateResource.Create client now req resp remote).resp =
        { State := resp.State,
          Diagnostics := diag.Diagnostics.AddError
            (diag.Diagnostics.Append resp.Diagnostics req.Plan.diags)
            "Error creating template"
            ("Could not create template, unexpected error: " ++ err) } ∧
      diag.Diagnostics.HasError
        (templateResource.Create client now req resp remote).resp.Diagnostics = true) ∧
    (∀ req : resource.ReadRequest,
      diag.Diagnostics.HasError
        (diag.Diagnostics.Append resp.Diagnostics req.State.diags) = false →
      client.GetTemplate req.State.value.PageID.ValueString
        req.State.value.ID.ValueString remote = (.error err, next) →
      (templateResource.Read client req resp remote).resp =
        { State := resp.State,
          Diagnostics := diag.Diagnostics.AddError
            (diag.Diagnostics.Append resp.Diagnostics req.State.diags)
            "Error Reading Instatus Template"
            ("Could not read Instatus template ID " ++ req.State.value.ID.ValueString ++
              ": " ++ err) } ∧
      diag.Diagnostics.HasError
        (templateResource.Read client req resp remote).resp.Diagnostics = true) ∧
    (∀ req : resource.UpdateRequest,
      diag.Diagnostics.HasError
        (diag.Diagnostics.Append resp.Diagnostics req.Plan.diags) = false →
      client.UpdateTemplate req.Plan.value.PageID.ValueString
        req.Plan.value.ID.ValueString (spec.requestBody req.Plan.value) remote
        = (.error err, next) →
      (templateResource.Update client now req resp remote).resp =
        { State := resp.State,
          Diagnostics := diag.Diagnostics.AddError
            (diag.Diagnostics.Append resp.Diagnostics req.Plan.diags)
            "Error Updating Instatus Template"
            ("Could not update template, unexpected error: " ++ err) } ∧
      diag.Diagnostics.HasError
        (templateResource.Update client now req resp remote).resp.Diagnostics = true) := by
  refine ⟨?_, ?_, ?_⟩
  · intro req hget hcall
    rw [Create_eq client now req resp remote hget, hcall]
    exact ⟨rfl, diag.Diagnostics.HasError_AddError _ _ _⟩
  · intro req hget hcall
    rw [Read_eq client req resp remote hget, hcall]
    exact ⟨rfl, diag.Diagnostics.HasError_AddError _ _ _⟩
  · intro req hget hcall
    rw [Update_eq client now req resp remote hget, hcall]
    exact ⟨rfl, diag.Diagnostics.HasError_AddError _ _ _⟩

/-- Witness of `fail_fast`: on a remote that cannot be reached, Create leaves the empty
state it was handed, Read and Update leave the prior state; each reports the error. -/
theorem fail_fast_witness :
    (templateResource.Create (stub.failing "boom") "now"
        { Plan := { diags := [], value := sample.desired } }
        { State := none, Diagnostics := [] } ()).resp =
      { State := none,
        Diagnostics := [diag.NewErrorDiagnostic "Error creating template"
          "Could not create template, unexpected error: boom"] } ∧
    (templateResource.Read (stub.failing "boom")
        { State := { diags := [], value := sample.persisted } }
        { State := some sample.persisted, Diagnostics := [] } ()).resp =
      { State := some sample.persisted,
        Diagnostics := [diag.NewErrorDiagnostic "Error Reading Instatus Template"
          "Could not read Instatus template ID tpl-1: boom"] } ∧
    (templateResource.Update (stub.failing "boom") "now"
        { Plan := { diags := [], value :=
            host.planUpdate sample.desired sample.persisted },
          State := { diags := [], value := sample.persisted } }
        { State := some sample.persisted, Diagnostics := [] } ()).resp =
      { State := some sample.persisted,
        Diagnostics := [diag.NewErrorDiagnostic "Error Updating Instatus Template"
          "Could not update template, unexpected error: boom"] } :=
  ⟨((fail_fast (stub.failing "boom") "now" { State := none, Diagnostics := [] } () ()
        "boom").1 { Plan := { diags := [], value := sample.desired } }
        (by decide) rfl).1,
   ((fail_fast (stub.failing "boom") "now"
        { State := some sample.persisted, Diagnostics := [] } () () "boom").2.1
        { State := { diags := [], value := sample.persisted } } (by decide) rfl).1,
   ((fail_fast (stub.failing "boom") "now"
        { State := some sample.persisted, Diagnostics := [] } () () "boom").2.2
        { Plan := { diags := [], value :=
            host.planUpdate sample.desired sample.persisted },
          State := { diags := [], value := sample.persisted } } (by decide) rfl).1⟩

/-! ## The component list -/

/-- Claim C11: for every desired document, the component list of the request body built by
Create has the length of the desired list and its i-th entry carries the id and the status
of the i-th desired component (for known values, those very values), so order is kept and
duplicates are sent unchanged; Update, given a plan with the same component list, sends
the same list. -/
theorem component_list_pass_through {σ τ : Type} (clientC : is.Client σ)
    (clientU : is.Client τ) (nowC nowU : String) (creq : resource.CreateRequest)
    (ureq : resource.UpdateRequest) (respC respU : resource.Response) (remoteC : σ)
    (remoteU : τ)
    (hgetC : diag.Diagnostics.HasError
      (diag.Diagnostics.Append respC.Diagnostics creq.Plan.diags) = false)
    (hgetU : diag.Diagnostics.HasError
      (diag.Diagnostics.Append respU.Diagnostics ureq.Plan.diags) = false)
    (hsame : ureq.Plan.value.Components = creq.Plan.value.Components) :
    sentComponents (templateResource.Create clientC nowC creq respC remoteC).calls =
      [creq.Plan.value.Components.map (fun component =>
        { ID := component.ID.ValueStringPointer,
          ComponentID := none,
          Status := component.Status.ValueStringPointer })] ∧
    sentComponents (templateResource.Update clientU nowU ureq respU remoteU).calls =
      sentComponents (templateResource.Create clientC nowC creq respC remoteC).calls ∧
    (∀ sent ∈ sentComponents (templateResource.Create clientC nowC creq respC remoteC).calls,
      sent.length = creq.Plan.value.Components.length ∧
      (∀ (i : Nat) (component : templateComponentModel),
        creq.Plan.value.Components[i]? = some component →
        sent[i]? = some { ID := component.ID.ValueStringPointer,
                          ComponentID := none,
                          Status := component.Status.ValueStringPointer }) ∧
      (∀ (i : Nat) (id status : String),
        creq.Plan.value.Components[i]? = some { ID := .known id, Status := .known status } →
        sent[i]? = some { ID := some id, ComponentID := none, Status := some status })) := by
  have hC : sentComponents (templateResource.Create clientC nowC creq respC remoteC).calls =
      [creq.Plan.value.Components.map (fun component =>
        { ID := component.ID.ValueStringPointer,
          ComponentID := none,
          Status := component.Status.ValueStringPointer })] := by
    rw [Create_eq clientC nowC creq respC remoteC hgetC]
    rcases clientC.CreateTemplate creq.Plan.value.PageID.ValueString
      (spec.requestBody creq.Plan.value) remoteC with ⟨_ | _, _⟩ <;> rfl
  have hU : sentComponents (templateResource.Update clientU nowU ureq respU remoteU).calls =
      [ureq.Plan.value.Components.map (fun component =>
        { ID := component.ID.ValueStringPointer,
          ComponentID := none,
          Status := component.Status.ValueStringPointer })] := by
    rw [Update_eq clientU nowU ureq respU remoteU hgetU]
    rcases clientU.UpdateTemplate ureq.Plan.value.PageID.ValueString
      ureq.Plan.value.ID.ValueString (spec.requestBody ureq.Plan.value) remoteU
      with ⟨_ | _, _⟩ <;> rfl
  refine ⟨hC, by rw [hU, hC, hsame], ?_⟩
  intro sent hsent
  rw [hC, List.mem_singleton] at hsent
  subst hsent
  refine ⟨List.length_map _ _, ?_, ?_⟩
  · intro i component hi
    rw [List.getElem?_map, hi]
    rfl
  · intro i id status hi
    rw [List.getElem?_map, hi]
    rfl

/-- Witness of `component_list_pass_through`: the two components of the sample document
share the identifier `cmp-1`; Create and Update both send the two entries, in order. -/
theorem component_list_pass_through_witness :
    sentComponents (templateResource.Create (stub.client "tpl-1" id) "now"
        { Plan := { diags := [], value := sample.desired } }
        { State := none, Diagnostics := [] } { templates := [] }).calls =
      [[{ ID := some "cmp-1", ComponentID := none, Status := some "OPERATIONAL" },
        { ID := some "cmp-1", ComponentID := none, Status := some "MAJOROUTAGE" }]] ∧
    sentComponents (templateResource.Update (stub.client "tpl-1" id) "later"
        { Plan := { diags := [], value :=
            host.planUpdate sample.desired sample.persisted },
          State := { diags := [], value := sample.persisted } }
        { State := some sample.persisted, Diagnostics := [] } sample.remote).calls =
      sentComponents (templateResource.Create (stub.client "tpl-1" id) "now"
        { Plan := { diags := [], value := sample.desired } }
        { State := none, Diagnostics := [] } { templates := [] }).calls :=
  ⟨(component_list_pass_through (stub.client "tpl-1" id) (stub.client "tpl-1" id)
      "now" "later" { Plan := { diags := [], value := sample.desired } }
      { Plan := { diags := [], value :=
          host.planUpdate sample.desired sample.persisted },
        State := { diags := [], value := sample.persisted } }
      { State := none, Diagnostics := [] }
      { State := some sample.persisted, Diagnostics := [] }
      { templates := [] } sample.remote (by decide) (by decide) rfl).1,
   (component_list_pass_through (stub.client "tpl-1" id) (stub.client "tpl-1" id)
      "now" "later" { Plan := { diags := [], value := sample.desired } }
      { Plan := { diags := [], value :=
          host.planUpdate sample.desired sample.persisted },
        State := { diags := [], value := sample.persisted } }
      { State := none, Diagnostics := [] }
      { State := some sample.persisted, Diagnostics := [] }
      { templates := [] } sample.remote (by decide) (by decide) rfl).2.1⟩

end instatus
